import Mathlib

/-!
Shallow embedding of the session-billing and wallet-ledger core of the
NakshatraTalks backend (Express + Supabase controllers), together with
theorems settling the spec claims about it.

Modelling conventions:
* Money and durations are exact rationals (`ℚ`); JavaScript numbers are
  modelled at full precision, with `Number.prototype.toFixed(n)` rendered as
  rounding to `n` decimal places (round half away from zero, which on the
  non-negative amounts arising here is `round`).
* Timestamps are rationals counting milliseconds (`Date.getTime()`).
* The datastore is an explicit `DB` record; every controller action is a
  function from `DB` (plus request data) to a result and an updated `DB`.
  Store writes are modelled as succeeding; request plumbing
  (authentication, JSON parsing, HTTP codes) is elided.
* Each controller file becomes a namespace; function and field names follow
  the source.
-/

/-- Session type of a `chat_sessions` row: `session_type ∈ {chat, call, video}`. -/
inductive SessionType where
  | chat
  | call
  | video
deriving DecidableEq, Repr

/-- Session status: `status ∈ {active, completed, cancelled}`. -/
inductive SessionStatus where
  | active
  | completed
  | cancelled
deriving DecidableEq, Repr

/-- Astrologer approval status: `status ∈ {pending, approved, rejected, inactive}`. -/
inductive AstrologerStatus where
  | pending
  | approved
  | rejected
  | inactive
deriving DecidableEq, Repr

/-- Review moderation status: `status ∈ {pending, approved, rejected}`. -/
inductive ReviewStatus where
  | pending
  | approved
  | rejected
deriving DecidableEq, Repr

/-- Transaction type: `type ∈ {recharge, debit, refund}`. -/
inductive TxnType where
  | recharge
  | debit
  | refund
deriving DecidableEq, Repr

/-- A row of the `chat_sessions` table (shared by chat, call and video sessions). -/
structure Session where
  id : Nat
  userId : Nat
  astrologerId : Nat
  sessionType : SessionType
  startTime : ℚ
  endTime : Option ℚ
  pricePerMinute : ℚ
  duration : Option ℚ
  totalCost : Option ℚ
  status : SessionStatus
deriving DecidableEq, Repr

/-- A row of the `transactions` table (immutable audit record). -/
structure Txn where
  id : Nat
  userId : Nat
  type : TxnType
  amount : ℚ
  description : String
  astrologerId : Option Nat
  sessionId : Option Nat
  duration : Option ℚ
  status : String
  balanceBefore : ℚ
  balanceAfter : ℚ
deriving DecidableEq, Repr

/-- The billing-relevant columns of an `astrologers` row. -/
structure Astrologer where
  chat_price_per_minute : ℚ
  call_price_per_minute : ℚ
  is_available : Bool
  status : AstrologerStatus
  rating : ℚ
  total_reviews : Nat
deriving DecidableEq, Repr

/-- A row of the `reviews` table. -/
structure Review where
  id : Nat
  userId : Nat
  astrologerId : Nat
  sessionId : Nat
  rating : ℚ
  status : ReviewStatus
deriving DecidableEq, Repr

/-- The datastore state seen by the controllers: user wallet balances
(`users.wallet_balance`, with existence tracked separately so that the
"User not found" branches are representable), astrologers, sessions,
transactions and reviews. -/
structure DB where
  userExists : Nat → Bool
  wallet_balance : Nat → ℚ
  astrologers : Nat → Option Astrologer
  sessions : List Session
  transactions : List Txn
  reviews : List Review

/-- Row filter of the store query `.eq('id', sessionId).single()`. -/
def sessionByIdQuery (sessionId : Nat) : Session → Bool :=
  fun s => decide (s.id = sessionId)

/-- Row filter of `.eq('user_id', userId).eq('status','active')` — the lookup
for a user's active session. -/
def userActiveSessionQuery (userId : Nat) : Session → Bool :=
  fun s => decide (s.userId = userId ∧ s.status = SessionStatus.active)

/-- Row filter of the chat end-session query:
`.eq('id', sessionId).eq('user_id', userId).eq('status','active')`. -/
def activeSessionQuery (sessionId userId : Nat) : Session → Bool :=
  fun s => decide (s.id = sessionId ∧ s.userId = userId ∧
    s.status = SessionStatus.active)

/-- Row filter of the call end-session query, which additionally requires
`session_type IN ('call','video')`. -/
def activeCallSessionQuery (sessionId userId : Nat) : Session → Bool :=
  fun s => decide (s.id = sessionId ∧ s.userId = userId ∧
    s.status = SessionStatus.active ∧
    (s.sessionType = SessionType.call ∨ s.sessionType = SessionType.video))

/-- A user's sessions with `status = active`; the spec's single-active-session
invariant asserts this list has at most one element. -/
def activeSessionsOf (db : DB) (userId : Nat) : List Session :=
  db.sessions.filter (userActiveSessionQuery userId)

/-- Row filter of the rating recomputation query:
`.eq('astrologer_id', astrologerId).eq('status', 'approved')`. -/
def approvedReviews (db : DB) (astrologerId : Nat) : List Review :=
  db.reviews.filter (fun r =>
    decide (r.astrologerId = astrologerId ∧ r.status = ReviewStatus.approved))

namespace WalletController

/-- Result record of `deductFromWallet`:
`{ success; error?; transactionId?; remainingBalance? }`. -/
structure DeductResult where
  success : Bool
  error : Option String
  transactionId : Option Nat
  remainingBalance : Option ℚ
deriving DecidableEq, Repr

/-- Embedding of `deductFromWallet` (wallet.controller.ts): read the current
balance, fail with `Insufficient balance` when `balanceBefore < amount`,
otherwise write `newBalance = balanceBefore - amount` and insert a `debit`
transaction storing `-amount` with before/after balance snapshots.  The
inserted row's id is modelled as the next index in the transaction list. -/
def deductFromWallet (db : DB) (userId : Nat) (amount : ℚ) (description : String)
    (astrologerId : Option Nat) (sessionId : Option Nat) (duration : Option ℚ) :
    DeductResult × DB :=
  if !(db.userExists userId) then
    ({ success := false, error := some "User not found",
       transactionId := none, remainingBalance := none }, db)
  else
    let balanceBefore := db.wallet_balance userId
    if balanceBefore < amount then
      ({ success := false, error := some "Insufficient balance",
         transactionId := none, remainingBalance := none }, db)
    else
      let newBalance := balanceBefore - amount
      let txnId := db.transactions.length
      let txn : Txn :=
        { id := txnId, userId := userId, type := TxnType.debit, amount := -amount,
          description := description, astrologerId := astrologerId,
          sessionId := sessionId, duration := duration, status := "completed",
          balanceBefore := balanceBefore, balanceAfter := newBalance }
      ({ success := true, error := none,
         transactionId := some txnId, remainingBalance := some newBalance },
       { db with wallet_balance := Function.update db.wallet_balance userId newBalance,
                 transactions := db.transactions ++ [txn] })

end WalletController

/-- Model of JavaScript `x.toFixed(digits)` parsed back to a number, for the
non-negative amounts arising here: round to `digits` decimal places, half
away from zero (which for non-negative values is `round`, i.e. half up). -/
def toFixed (digits : Nat) (x : ℚ) : ℚ :=
  ((round (x * 10 ^ digits) : ℤ) : ℚ) / 10 ^ digits

/-- Model of the `increment_astrologer_calls` RPC is not needed by any claim;
the session-end flows call it after settlement and its failure is swallowed.
We model it as the identity on the billing-relevant state. -/
def incrementAstrologerCalls (db : DB) (_astrologerId : Nat) : DB := db

/-- Result of a start-session endpoint. -/
inductive StartSessionResult where
  | validationError (msg : String)
  | notFound (msg : String)
  | badRequest (msg : String)
  | insufficientBalance (msg : String)
  | ok (session : Session)
deriving DecidableEq, Repr

/-- Result of an end-session endpoint. -/
inductive EndSessionResult where
  | notFound (msg : String)
  | insufficientBalance (error : Option String)
  | ok (sessionId : Nat) (duration : ℚ) (totalCost : ℚ)
       (remainingBalance : Option ℚ) (transactionId : Option Nat)
deriving DecidableEq, Repr

namespace ChatController

/-- Charged minutes in the chat controller: `Math.ceil((end - start) / (1000 * 60))` —
wall-clock milliseconds rounded UP to whole minutes. -/
def ceilMinutes (startTime now : ℚ) : ℚ :=
  ((⌈(now - startTime) / (1000 * 60)⌉ : ℤ) : ℚ)

/-- Embedding of the chat controller's `endExistingSession` helper: load the
session by id alone, charge `ceil`-rounded whole minutes at the snapshotted
price, call `deductFromWallet` with the result IGNORED, then unconditionally
mark the session completed and bump the astrologer's call counter.  Any
thrown error is swallowed (`catch` logs only), so the helper returns only a
new state. -/
def endExistingSession (db : DB) (sessionId : Nat) (userId : Nat) (now : ℚ) : DB :=
  match db.sessions.find? (sessionByIdQuery sessionId) with
  | none => db
  | some session =>
    let durationMinutes := ceilMinutes session.startTime now
    let totalCost := durationMinutes * session.pricePerMinute
    let (_, db1) := WalletController.deductFromWallet db userId totalCost
      "session ended automatically" (some session.astrologerId) (some sessionId)
      (some durationMinutes)
    let db2 : DB :=
      { db1 with sessions := db1.sessions.map fun s =>
          if s.id = sessionId then
            { s with endTime := some now, duration := some durationMinutes,
                     totalCost := some totalCost, status := SessionStatus.completed }
          else s }
    incrementAstrologerCalls db2 session.astrologerId

/-- Embedding of `startChatSession`: validate the session type (every
`SessionType` value is in the accepted list `{chat, call, video}`), load the
astrologer, require `status = approved` and `is_available`, pick the chat or
call price, require `balance ≥ pricePerMinute * 5` (a missing user row also
lands in the insufficient-balance branch), auto-end any existing active
session of the user via `endExistingSession`, then insert the new `active`
row with the snapshotted price.  `newSessionId` stands for the id the store
assigns to the inserted row. -/
def startChatSession (db : DB) (userId : Nat) (astrologerId : Nat)
    (sessionType : SessionType) (now : ℚ) (newSessionId : Nat) :
    StartSessionResult × DB :=
  match db.astrologers astrologerId with
  | none => (StartSessionResult.notFound "Astrologer not found", db)
  | some astrologer =>
    if astrologer.status ≠ AstrologerStatus.approved then
      (StartSessionResult.badRequest "Astrologer is not approved", db)
    else if !astrologer.is_available then
      (StartSessionResult.badRequest "Astrologer is currently unavailable", db)
    else
      let pricePerMinute := if sessionType = SessionType.chat then
        astrologer.chat_price_per_minute else astrologer.call_price_per_minute
      let minimumRequired := pricePerMinute * 5
      if !(db.userExists userId) || db.wallet_balance userId < minimumRequired then
        (StartSessionResult.insufficientBalance "Insufficient wallet balance", db)
      else
        let db1 :=
          match db.sessions.find? (userActiveSessionQuery userId) with
          | some existingSession => endExistingSession db existingSession.id userId now
          | none => db
        let session : Session :=
          { id := newSessionId, userId := userId, astrologerId := astrologerId,
            sessionType := sessionType, startTime := now, endTime := none,
            pricePerMinute := pricePerMinute, duration := none, totalCost := none,
            status := SessionStatus.active }
        (StartSessionResult.ok session,
         { db1 with sessions := db1.sessions ++ [session] })

/-- Embedding of `endChatSession`: load the caller's ACTIVE session by id,
charge `ceil`-rounded whole minutes at the snapshotted price, deduct from the
wallet and — only if the deduction succeeded — mark the session completed;
on deduction failure the insufficient-balance error propagates and the
session row is left untouched. -/
def endChatSession (db : DB) (userId : Nat) (sessionId : Nat) (now : ℚ) :
    EndSessionResult × DB :=
  match db.sessions.find? (activeSessionQuery sessionId userId) with
  | none => (EndSessionResult.notFound "Active session not found", db)
  | some session =>
    let durationMinutes := ceilMinutes session.startTime now
    let totalCost := durationMinutes * session.pricePerMinute
    let (deductResult, db1) := WalletController.deductFromWallet db userId totalCost
      "session with astrologer" (some session.astrologerId) (some sessionId)
      (some durationMinutes)
    if !deductResult.success then
      (EndSessionResult.insufficientBalance deductResult.error, db1)
    else
      let db2 : DB :=
        { db1 with sessions := db1.sessions.map fun s =>
            if s.id = sessionId then
              { s with endTime := some now, duration := some durationMinutes,
                       totalCost := some totalCost, status := SessionStatus.completed }
            else s }
      (EndSessionResult.ok sessionId durationMinutes totalCost
         deductResult.remainingBalance deductResult.transactionId,
       incrementAstrologerCalls db2 session.astrologerId)

end ChatController

namespace CallController

/-- Charged minutes in the call controller: exact fractional minutes,
`durationSeconds = (end - start) / 1000`, `durationMinutes = durationSeconds / 60`. -/
def exactMinutes (startTime now : ℚ) : ℚ :=
  ((now - startTime) / 1000) / 60

/-- Charged cost in the call controller:
`parseFloat((durationMinutes * pricePerMinute).toFixed(2))` — the exact
fractional-minute cost rounded to 2 decimal places. -/
def exactCost (startTime now pricePerMinute : ℚ) : ℚ :=
  toFixed 2 (exactMinutes startTime now * pricePerMinute)

/-- Embedding of the call controller's `endExistingSession` helper: load the
session by id alone, charge exact fractional minutes at the snapshotted price
rounded to 2 decimals, call `deductFromWallet` with the result IGNORED, then
unconditionally mark the session completed and bump the astrologer's call
counter. -/
def endExistingSession (db : DB) (sessionId : Nat) (userId : Nat) (now : ℚ) : DB :=
  match db.sessions.find? (sessionByIdQuery sessionId) with
  | none => db
  | some session =>
    let durationMinutes := exactMinutes session.startTime now
    let totalCost := exactCost session.startTime now session.pricePerMinute
    let (_, db1) := WalletController.deductFromWallet db userId totalCost
      "session ended automatically" (some session.astrologerId) (some sessionId)
      (some durationMinutes)
    let db2 : DB :=
      { db1 with sessions := db1.sessions.map fun s =>
          if s.id = sessionId then
            { s with endTime := some now, duration := some durationMinutes,
                     totalCost := some totalCost, status := SessionStatus.completed }
          else s }
    incrementAstrologerCalls db2 session.astrologerId

/-- Embedding of `startCallSession`: like `startChatSession`, but only the
session types `call` and `video` are accepted, and the price is always the
astrologer's `call_price_per_minute`. -/
def startCallSession (db : DB) (userId : Nat) (astrologerId : Nat)
    (sessionType : SessionType) (now : ℚ) (newSessionId : Nat) :
    StartSessionResult × DB :=
  if sessionType = SessionType.chat then
    (StartSessionResult.validationError "Invalid session type. Must be call or video", db)
  else
    match db.astrologers astrologerId with
    | none => (StartSessionResult.notFound "Astrologer not found", db)
    | some astrologer =>
      if astrologer.status ≠ AstrologerStatus.approved then
        (StartSessionResult.badRequest "Astrologer is not approved", db)
      else if !astrologer.is_available then
        (StartSessionResult.badRequest "Astrologer is currently unavailable", db)
      else
        let pricePerMinute := astrologer.call_price_per_minute
        let minimumRequired := pricePerMinute * 5
        if !(db.userExists userId) || db.wallet_balance userId < minimumRequired then
          (StartSessionResult.insufficientBalance "Insufficient wallet balance", db)
        else
          let db1 :=
            match db.sessions.find? (userActiveSessionQuery userId) with
            | some existingSession => endExistingSession db existingSession.id userId now
            | none => db
          let session : Session :=
            { id := newSessionId, userId := userId, astrologerId := astrologerId,
              sessionType := sessionType, startTime := now, endTime := none,
              pricePerMinute := pricePerMinute, duration := none, totalCost := none,
              status := SessionStatus.active }
          (StartSessionResult.ok session,
           { db1 with sessions := db1.sessions ++ [session] })

/-- Embedding of `endCallSession`: load the caller's ACTIVE session by id with
the extra filter `session_type IN ('call','video')`, charge exact fractional
minutes at the snapshotted price rounded to 2 decimals, deduct from the
wallet and — only if the deduction succeeded — mark the session completed;
on deduction failure the insufficient-balance error propagates and the
session row is left untouched. -/
def endCallSession (db : DB) (userId : Nat) (sessionId : Nat) (now : ℚ) :
    EndSessionResult × DB :=
  match db.sessions.find? (activeCallSessionQuery sessionId userId) with
  | none => (EndSessionResult.notFound "Active call session not found", db)
  | some session =>
    let durationMinutes := exactMinutes session.startTime now
    let totalCost := exactCost session.startTime now session.pricePerMinute
    let (deductResult, db1) := WalletController.deductFromWallet db userId totalCost
      "session with astrologer" (some session.astrologerId) (some sessionId)
      (some durationMinutes)
    if !deductResult.success then
      (EndSessionResult.insufficientBalance deductResult.error, db1)
    else
      let db2 : DB :=
        { db1 with sessions := db1.sessions.map fun s =>
            if s.id = sessionId then
              { s with endTime := some now, duration := some durationMinutes,
                       totalCost := some totalCost, status := SessionStatus.completed }
            else s }
      (EndSessionResult.ok sessionId durationMinutes totalCost
         deductResult.remainingBalance deductResult.transactionId,
       incrementAstrologerCalls db2 session.astrologerId)

end CallController

/-- Result of the `validateBalance` pre-flight check. -/
inductive ValidateBalanceResult where
  | notFoundAstrologer
  | notFoundUser
  | insufficient (currentBalance pricePerMinute minimumRequired shortfall : ℚ)
  | ok (currentBalance pricePerMinute minimumRequired : ℚ) (estimatedMinutes : ℤ)
deriving DecidableEq, Repr

namespace ChatController

/-- Embedding of `validateBalance` (chat controller): load the astrologer's
chat price, the user's balance, compute `minimumRequired = pricePerMinute * 5`,
`canStartChat = currentBalance ≥ minimumRequired` and
`estimatedMinutes = Math.floor(currentBalance / pricePerMinute)`; on
insufficiency report `shortfall = minimumRequired - currentBalance`.  The
operation reads the store and returns it unchanged.  (For `pricePerMinute = 0`
the JS `Math.floor(b / 0)` is infinite while `ℚ` division by zero is 0; the
claims about this operation assume a positive price.) -/
def validateBalance (db : DB) (userId : Nat) (astrologerId : Nat) :
    ValidateBalanceResult × DB :=
  match db.astrologers astrologerId with
  | none => (ValidateBalanceResult.notFoundAstrologer, db)
  | some astrologer =>
    let pricePerMinute := astrologer.chat_price_per_minute
    let minimumRequired := pricePerMinute * 5
    if !(db.userExists userId) then
      (ValidateBalanceResult.notFoundUser, db)
    else
      let currentBalance := db.wallet_balance userId
      let canStartChat := decide (currentBalance ≥ minimumRequired)
      let estimatedMinutes := ⌊currentBalance / pricePerMinute⌋
      if !canStartChat then
        (ValidateBalanceResult.insufficient currentBalance pricePerMinute
          minimumRequired (minimumRequired - currentBalance), db)
      else
        (ValidateBalanceResult.ok currentBalance pricePerMinute minimumRequired
          estimatedMinutes, db)

end ChatController

namespace ReviewsController

/-- Embedding of the `updateAstrologerRating` helper: collect the astrologer's
reviews with `status = approved`; if there are none, return with NO update;
otherwise set the astrologer's `rating` to the arithmetic mean of their
ratings rounded to one decimal (`Number(avgRating.toFixed(1))`) and
`total_reviews` to their count. -/
def updateAstrologerRating (db : DB) (astrologerId : Nat) : DB :=
  let reviews := approvedReviews db astrologerId
  if reviews.length = 0 then db
  else
    let totalRating := (reviews.map Review.rating).sum
    let avgRating := totalRating / (reviews.length : ℚ)
    { db with astrologers := fun aid =>
        if aid = astrologerId then
          (db.astrologers aid).map fun a =>
            { a with rating := toFixed 1 avgRating, total_reviews := reviews.length }
        else db.astrologers aid }

/-- Result of the review-moderation endpoint. -/
inductive ModerateResult where
  | notFound
  | ok (id : Nat) (status : ReviewStatus)
deriving DecidableEq, Repr

/-- Embedding of `moderateReview` (admin): update the review's status by id
(`NotFound` when no such row), then recompute the astrologer's aggregate
rating via `updateAstrologerRating`. -/
def moderateReview (db : DB) (reviewId : Nat) (newStatus : ReviewStatus) :
    ModerateResult × DB :=
  match db.reviews.find? (fun r => decide (r.id = reviewId)) with
  | none => (ModerateResult.notFound, db)
  | some r =>
    let db1 : DB :=
      { db with reviews := db.reviews.map fun x =>
          if x.id = reviewId then { x with status := newStatus } else x }
    (ModerateResult.ok r.id newStatus, updateAstrologerRating db1 r.astrologerId)

end ReviewsController

/-- Fixture: an approved, available astrologer charging 10 per minute for
chat and 12 for calls, currently rated 3 from one review. -/
def astroStd : Astrologer :=
  { chat_price_per_minute := 10, call_price_per_minute := 12,
    is_available := true, status := AstrologerStatus.approved,
    rating := 3, total_reviews := 1 }

/-- Fixture: an approved, available astrologer whose prices are 0. -/
def astroFree : Astrologer :=
  { chat_price_per_minute := 0, call_price_per_minute := 0,
    is_available := true, status := AstrologerStatus.approved,
    rating := 0, total_reviews := 0 }

/-- Fixture: an active chat session of user 7 with astrologer 3 at 10 per
minute, started at time 0. -/
def sessChat : Session :=
  { id := 1, userId := 7, astrologerId := 3, sessionType := SessionType.chat,
    startTime := 0, endTime := none, pricePerMinute := 10, duration := none,
    totalCost := none, status := SessionStatus.active }

/-- Fixture: the same session as a call session. -/
def sessCall : Session :=
  { sessChat with sessionType := SessionType.call }

/-- Fixture: store with user 7 holding balance 100, astrologer 3 (`astroStd`),
and the single active chat session `sessChat`. -/
def dbBase : DB :=
  { userExists := fun u => u == 7, wallet_balance := fun _ => 100,
    astrologers := fun a => if a = 3 then some astroStd else none,
    sessions := [sessChat], transactions := [], reviews := [] }

/-- Fixture: `dbBase` with the active session being a call session. -/
def dbCall : DB :=
  { dbBase with sessions := [sessCall] }

/-- Fixture: user 7 with balance 0, an active chat session `sessChat`
(astrologer 3) and a second, free astrologer 9 — starting a new session with
astrologer 9 passes the affordability check while the settlement of the old
session cannot be paid. -/
def dbPoor : DB :=
  { userExists := fun u => u == 7, wallet_balance := fun _ => 0,
    astrologers := fun a =>
      if a = 3 then some astroStd else if a = 9 then some astroFree else none,
    sessions := [sessChat], transactions := [], reviews := [] }

/-- Fixture: two approved reviews, ratings 3 and 5, for astrologer 3. -/
def dbTwoReviews : DB :=
  { dbBase with reviews := [
      { id := 1, userId := 7, astrologerId := 3, sessionId := 1, rating := 3,
        status := ReviewStatus.approved },
      { id := 2, userId := 8, astrologerId := 3, sessionId := 2, rating := 5,
        status := ReviewStatus.approved }] }

/-- Fixture: a single approved review of rating 3 for astrologer 3, matching
the stored aggregate `rating = 3`, `total_reviews = 1` of `astroStd`. -/
def dbOneReview : DB :=
  { dbBase with reviews := [
      { id := 1, userId := 7, astrologerId := 3, sessionId := 1, rating := 3,
        status := ReviewStatus.approved }] }

/-- Fixture: user 7 with balance exactly 50 — the five-minute floor for the
chat price 10 of astrologer 3 — and no sessions at all. -/
def dbFifty : DB :=
  { dbBase with wallet_balance := fun _ => 50, sessions := [] }

/-- C4: for any user and any debit of `amount` exceeding the current balance,
`deductFromWallet` fails with `Insufficient balance` and leaves the store
untouched (balance unchanged, no transaction inserted); moreover a debit
never drives a non-negative balance below zero. -/
theorem C4_debit_never_overdraws (db : DB) (userId : Nat) (amount : ℚ)
    (description : String) (astrologerId sessionId : Option Nat)
    (duration : Option ℚ) :
    (db.userExists userId = true → db.wallet_balance userId < amount →
      WalletController.deductFromWallet db userId amount description
          astrologerId sessionId duration =
        ({ success := false, error := some "Insufficient balance",
           transactionId := none, remainingBalance := none }, db)) ∧
    (0 ≤ db.wallet_balance userId →
      0 ≤ (WalletController.deductFromWallet db userId amount description
          astrologerId sessionId duration).2.wallet_balance userId) := by
  constructor
  · intro hu hlt
    simp [WalletController.deductFromWallet, hu, hlt]
  · intro hb
    unfold WalletController.deductFromWallet
    by_cases hu : db.userExists userId = true
    · by_cases hlt : db.wallet_balance userId < amount
      · simp [hu, hlt, hb]
      · simp only [hu, Bool.not_true, Bool.false_eq_true, if_false, hlt]
        rw [Function.update_same]
        linarith [not_lt.mp hlt]
    · simp [Bool.eq_false_iff.mpr hu, hb]

/-- Witness for C4 at a concrete input: user 7 of `dbBase` holds 100 and a
debit of 200 fails, changes nothing, and leaves the balance non-negative. -/
theorem C4_witness :
    (dbBase.userExists 7 = true ∧ dbBase.wallet_balance 7 < 200 ∧
      (0 : ℚ) ≤ dbBase.wallet_balance 7) ∧
    WalletController.deductFromWallet dbBase 7 200 "settle" none none none =
      ({ success := false, error := some "Insufficient balance",
         transactionId := none, remainingBalance := none }, dbBase) ∧
    0 ≤ (WalletController.deductFromWallet dbBase 7 200 "settle"
        none none none).2.wallet_balance 7 := by
  refine ⟨⟨rfl, by norm_num [dbBase], by norm_num [dbBase]⟩, ?_, ?_⟩
  · exact (C4_debit_never_overdraws dbBase 7 200 "settle" none none none).1
      rfl (by norm_num [dbBase])
  · exact (C4_debit_never_overdraws dbBase 7 200 "settle" none none none).2
      (by norm_num [dbBase])

/-- C5: a successful debit of `amount` stores `balanceBefore - amount` as the
new balance, appends a `debit` transaction whose `amount` field is the
negated value with exact before/after balance snapshots, and returns
`success = true` with the transaction id and
`remainingBalance = balanceBefore - amount`. -/
theorem C5_debit_success_ledger (db : DB) (userId : Nat) (amount : ℚ)
    (description : String) (astrologerId sessionId : Option Nat)
    (duration : Option ℚ)
    (hu : db.userExists userId = true)
    (hge : ¬(db.wallet_balance userId < amount)) :
    (WalletController.deductFromWallet db userId amount description
        astrologerId sessionId duration).1 =
      { success := true, error := none,
        transactionId := some db.transactions.length,
        remainingBalance := some (db.wallet_balance userId - amount) } ∧
    (WalletController.deductFromWallet db userId amount description
        astrologerId sessionId duration).2.wallet_balance userId =
      db.wallet_balance userId - amount ∧
    (WalletController.deductFromWallet db userId amount description
        astrologerId sessionId duration).2.transactions =
      db.transactions ++
        [{ id := db.transactions.length, userId := userId,
           type := TxnType.debit, amount := -amount,
           description := description, astrologerId := astrologerId,
           sessionId := sessionId, duration := duration, status := "completed",
           balanceBefore := db.wallet_balance userId,
           balanceAfter := db.wallet_balance userId - amount }] := by
  simp [WalletController.deductFromWallet, hu, hge, Function.update_same]

/-- Witness for C5 at a concrete input: debiting 30 from user 7 of `dbBase`
(balance 100) stores 70 and appends the `-30` debit transaction — the spec's
three-minute-session scenario. -/
theorem C5_witness :
    (dbBase.userExists 7 = true ∧ ¬(dbBase.wallet_balance 7 < 30)) ∧
    (WalletController.deductFromWallet dbBase 7 30 "chat session" (some 3)
        (some 1) (some 3)).1 =
      { success := true, error := none,
        transactionId := some dbBase.transactions.length,
        remainingBalance := some (dbBase.wallet_balance 7 - 30) } ∧
    (WalletController.deductFromWallet dbBase 7 30 "chat session" (some 3)
        (some 1) (some 3)).2.wallet_balance 7 = dbBase.wallet_balance 7 - 30 ∧
    (WalletController.deductFromWallet dbBase 7 30 "chat session" (some 3)
        (some 1) (some 3)).2.transactions =
      dbBase.transactions ++
        [{ id := dbBase.transactions.length, userId := 7,
           type := TxnType.debit, amount := -30,
           description := "chat session", astrologerId := some 3,
           sessionId := some 1, duration := some 3, status := "completed",
           balanceBefore := dbBase.wallet_balance 7,
           balanceAfter := dbBase.wallet_balance 7 - 30 }] := by
  refine ⟨⟨rfl, by norm_num [dbBase]⟩, ?_⟩
  exact C5_debit_success_ledger dbBase 7 30 "chat session" (some 3) (some 1)
    (some 3) rfl (by norm_num [dbBase])

/-- C9: `deductFromWallet` imposes no positivity precondition on the amount:
for `amount ≤ 0` and a non-negative balance the insufficiency check cannot
trigger, so the debit succeeds, stores `balanceBefore - amount` (not below
the old balance), and appends a `debit` transaction with `amount` negated. -/
theorem C9_debit_nonpositive_amount (db : DB) (userId : Nat) (amount : ℚ)
    (description : String) (astrologerId sessionId : Option Nat)
    (duration : Option ℚ)
    (hu : db.userExists userId = true)
    (ha : amount ≤ 0)
    (hb : 0 ≤ db.wallet_balance userId) :
    ((WalletController.deductFromWallet db userId amount description
        astrologerId sessionId duration).1).success = true ∧
    (WalletController.deductFromWallet db userId amount description
        astrologerId sessionId duration).2.wallet_balance userId =
      db.wallet_balance userId - amount ∧
    db.wallet_balance userId ≤
      (WalletController.deductFromWallet db userId amount description
        astrologerId sessionId duration).2.wallet_balance userId ∧
    ∃ t, (WalletController.deductFromWallet db userId amount description
        astrologerId sessionId duration).2.transactions =
          db.transactions ++ [t] ∧
      t.type = TxnType.debit ∧ t.amount = -amount := by
  have hge : ¬(db.wallet_balance userId < amount) := not_lt.mpr (ha.trans hb)
  refine ⟨?_, ?_, ?_, ?_⟩
  · simp [WalletController.deductFromWallet, hu, hge]
  · simp [WalletController.deductFromWallet, hu, hge, Function.update_same]
  · simp only [WalletController.deductFromWallet, hu, Bool.not_true,
      Bool.false_eq_true, if_false, hge]
    rw [Function.update_same]
    linarith
  · exact ⟨Txn.mk db.transactions.length userId TxnType.debit (-amount)
        description astrologerId sessionId duration "completed"
        (db.wallet_balance userId) (db.wallet_balance userId - amount),
      by simp [WalletController.deductFromWallet, hu, hge], rfl, rfl⟩

/-- Witness for C9 at a concrete input: a zero-cost settlement against user 7
of `dbPoor`, whose balance is zero, succeeds and leaves the balance at 0. -/
theorem C9_witness :
    (dbPoor.userExists 7 = true ∧ (0 : ℚ) ≤ 0 ∧
      (0 : ℚ) ≤ dbPoor.wallet_balance 7) ∧
    ((WalletController.deductFromWallet dbPoor 7 0 "zero-duration session"
        none none none).1).success = true ∧
    (WalletController.deductFromWallet dbPoor 7 0 "zero-duration session"
        none none none).2.wallet_balance 7 = dbPoor.wallet_balance 7 - 0 ∧
    dbPoor.wallet_balance 7 ≤
      (WalletController.deductFromWallet dbPoor 7 0 "zero-duration session"
        none none none).2.wallet_balance 7 ∧
    ∃ t, (WalletController.deductFromWallet dbPoor 7 0 "zero-duration session"
        none none none).2.transactions = dbPoor.transactions ++ [t] ∧
      t.type = TxnType.debit ∧ t.amount = -0 := by
  refine ⟨⟨rfl, le_refl 0, by norm_num [dbPoor]⟩, ?_⟩
  exact C9_debit_nonpositive_amount dbPoor 7 0 "zero-duration session"
    none none none rfl (le_refl 0) (by norm_num [dbPoor])

/-- C7: `validateBalance` is a read-only pre-flight check: the store is
returned unchanged, and for a user with balance `b` and an astrologer with
positive chat price `p` it answers sufficient exactly when `b ≥ p * 5`, with
`estimatedMinutes = ⌊b / p⌋`, and otherwise reports
`shortfall = p * 5 - b`.  (The positivity hypothesis marks the domain on
which the `ℚ` model of `Math.floor(b / p)` is faithful.) -/
theorem C7_validateBalance_readonly (db : DB) (userId astrologerId : Nat)
    (astrologer : Astrologer)
    (hast : db.astrologers astrologerId = some astrologer)
    (hu : db.userExists userId = true)
    (hp : 0 < astrologer.chat_price_per_minute) :
    (ChatController.validateBalance db userId astrologerId).2 = db ∧
    (astrologer.chat_price_per_minute * 5 ≤ db.wallet_balance userId →
      (ChatController.validateBalance db userId astrologerId).1 =
        ValidateBalanceResult.ok (db.wallet_balance userId)
          astrologer.chat_price_per_minute
          (astrologer.chat_price_per_minute * 5)
          ⌊db.wallet_balance userId / astrologer.chat_price_per_minute⌋) ∧
    (db.wallet_balance userId < astrologer.chat_price_per_minute * 5 →
      (ChatController.validateBalance db userId astrologerId).1 =
        ValidateBalanceResult.insufficient (db.wallet_balance userId)
          astrologer.chat_price_per_minute
          (astrologer.chat_price_per_minute * 5)
          (astrologer.chat_price_per_minute * 5 - db.wallet_balance userId)) := by
  refine ⟨?_, ?_, ?_⟩
  · unfold ChatController.validateBalance
    by_cases hc : astrologer.chat_price_per_minute * 5 ≤ db.wallet_balance userId <;>
      simp [hast, hu, hc, ge_iff_le]
  · intro hge
    simp [ChatController.validateBalance, hast, hu, ge_iff_le, hge]
  · intro hlt
    simp [ChatController.validateBalance, hast, hu, ge_iff_le, not_le.mpr hlt]

/-- Witness for C7 at the spec's scenario: balance 100, chat price 10 —
`validateBalance` answers sufficient with `estimatedMinutes = 10` and leaves
the store unchanged. -/
theorem C7_witness :
    (dbBase.astrologers 3 = some astroStd ∧ dbBase.userExists 7 = true ∧
      0 < astroStd.chat_price_per_minute ∧
      astroStd.chat_price_per_minute * 5 ≤ dbBase.wallet_balance 7) ∧
    (ChatController.validateBalance dbBase 7 3).2 = dbBase ∧
    (ChatController.validateBalance dbBase 7 3).1 =
      ValidateBalanceResult.ok 100 10 50 10 := by
  have h := C7_validateBalance_readonly dbBase 7 3 astroStd
    (by norm_num [dbBase]) rfl (by norm_num [astroStd])
  refine ⟨⟨by norm_num [dbBase], rfl, by norm_num [astroStd],
    by norm_num [dbBase, astroStd]⟩, h.1, ?_⟩
  rw [h.2.1 (by norm_num [dbBase, astroStd])]
  norm_num [dbBase, astroStd]

/-- C10: the call end endpoint filters on `session_type IN ('call','video')`,
so an active chat session owned by the caller is invisible to it: the call
fails with `NotFound` and the store is unchanged.  (Session ids are assumed
unique, as store-assigned primary keys are.) -/
theorem C10_call_end_chat_notFound (db : DB) (userId sessionId : Nat)
    (now : ℚ) (s : Session)
    (hmem : s ∈ db.sessions)
    (hid : s.id = sessionId) (huid : s.userId = userId)
    (hact : s.status = SessionStatus.active)
    (hty : s.sessionType = SessionType.chat)
    (hnodup : (db.sessions.map Session.id).Nodup) :
    CallController.endCallSession db userId sessionId now =
      (EndSessionResult.notFound "Active call session not found", db) := by
  have hnone : db.sessions.find? (activeCallSessionQuery sessionId userId) = none := by
    rw [List.find?_eq_none]
    intro t ht hpt
    simp only [activeCallSessionQuery, decide_eq_true_eq] at hpt
    have hts : t = s :=
      List.inj_on_of_nodup_map hnodup ht hmem (by rw [hpt.1, hid])
    rcases hpt.2.2.2 with hcall | hvideo
    · rw [hts, hty] at hcall
      exact SessionType.noConfusion hcall
    · rw [hts, hty] at hvideo
      exact SessionType.noConfusion hvideo
  simp [CallController.endCallSession, hnone]

/-- Witness for C10 at a concrete input: `dbBase` holds the active chat
session `sessChat` of user 7; ending it through the call endpoint yields
`NotFound` and changes nothing. -/
theorem C10_witness :
    (sessChat ∈ dbBase.sessions ∧ sessChat.sessionType = SessionType.chat ∧
      sessChat.status = SessionStatus.active ∧
      (dbBase.sessions.map Session.id).Nodup) ∧
    CallController.endCallSession dbBase 7 1 90000 =
      (EndSessionResult.notFound "Active call session not found", dbBase) := by
  refine ⟨⟨by simp [dbBase], rfl, rfl, by simp [dbBase]⟩, ?_⟩
  exact C10_call_end_chat_notFound dbBase 7 1 90000 sessChat
    (by simp [dbBase]) rfl rfl rfl rfl (by simp [dbBase])

/-- C8 (amended): whenever at least one approved review exists for the
astrologer, `updateAstrologerRating` — invoked by both review creation and
moderation — stores the arithmetic mean of the approved ratings rounded to
one decimal and sets `total_reviews` to their count; with zero approved
reviews it returns without touching the store (so a moderation that rejects
the last approved review leaves the stale aggregates in place). -/
theorem C8_rating_recompute (db : DB) (astrologerId : Nat) :
    ((approvedReviews db astrologerId).length ≠ 0 →
      (ReviewsController.updateAstrologerRating db astrologerId).astrologers
          astrologerId =
        (db.astrologers astrologerId).map (fun a =>
          { a with
            rating := toFixed 1
              (((approvedReviews db astrologerId).map Review.rating).sum /
                ((approvedReviews db astrologerId).length : ℚ)),
            total_reviews := (approvedReviews db astrologerId).length })) ∧
    ((approvedReviews db astrologerId).length = 0 →
      ReviewsController.updateAstrologerRating db astrologerId = db) := by
  constructor
  · intro h
    simp [ReviewsController.updateAstrologerRating, h]
  · intro h
    simp [ReviewsController.updateAstrologerRating, h]

/-- Witness for C8 at the spec's scenario: approved ratings 3 and 5 for
astrologer 3 of `dbTwoReviews` yield stored `rating = 4.0` and
`total_reviews = 2`. -/
theorem C8_witness :
    (approvedReviews dbTwoReviews 3).length ≠ 0 ∧
    (ReviewsController.updateAstrologerRating dbTwoReviews 3).astrologers 3 =
      some { astroStd with rating := 4, total_reviews := 2 } := by
  have hne : (approvedReviews dbTwoReviews 3).length ≠ 0 := by
    simp [approvedReviews, dbTwoReviews, dbBase]
  refine ⟨hne, ?_⟩
  rw [(C8_rating_recompute dbTwoReviews 3).1 hne]
  have hlist : approvedReviews dbTwoReviews 3 =
      [{ id := 1, userId := 7, astrologerId := 3, sessionId := 1, rating := 3,
         status := ReviewStatus.approved },
       { id := 2, userId := 8, astrologerId := 3, sessionId := 2, rating := 5,
         status := ReviewStatus.approved }] := by
    simp [approvedReviews, dbTwoReviews, dbBase]
  rw [hlist]
  have hfix : toFixed 1 (4 : ℚ) = 4 := by
    norm_num [toFixed, round_eq]
  simp only [List.map_cons, List.map_nil, List.sum_cons, List.sum_nil,
    List.length_cons, List.length_nil]
  norm_num [hfix, dbTwoReviews, dbBase, astroStd]

/-- Counterexample for C8 as stated: moderating the single approved review of
astrologer 3 (`dbOneReview`, stored aggregates `rating = 3`,
`total_reviews = 1`) to `rejected` leaves zero approved reviews, yet the
stored `total_reviews` remains 1 instead of the approved-review count 0 —
the aggregates are not recomputed on this moderation. -/
theorem C8_counterexample :
    (ReviewsController.moderateReview dbOneReview 1
        ReviewStatus.rejected).2.astrologers 3 = some astroStd ∧
    approvedReviews (ReviewsController.moderateReview dbOneReview 1
        ReviewStatus.rejected).2 3 = [] ∧
    astroStd.total_reviews = 1 ∧ (1 : Nat) ≠ 0 := by
  refine ⟨?_, ?_, rfl, one_ne_zero⟩
  · simp [ReviewsController.moderateReview, ReviewsController.updateAstrologerRating,
      approvedReviews, dbOneReview, dbBase]
  · simp [ReviewsController.moderateReview, ReviewsController.updateAstrologerRating,
      approvedReviews, dbOneReview, dbBase]

/-- C1 (amended): a session ended through the CALL session-end operation is
charged `round(durationMinutes * pricePerMinute, 2)` with
`durationMinutes = ((now - startTime)/1000)/60` the exact fractional elapsed
minutes, not rounded up: the response, the stored balance and the stored
session row all carry that amount.  (The CHAT session-end operation instead
charges `ceil` whole minutes; see the counterexample.) -/
theorem C1_call_end_fractional_billing (db : DB) (userId sessionId : Nat)
    (now : ℚ) (s : Session)
    (hfind : db.sessions.find? (activeCallSessionQuery sessionId userId) = some s)
    (hu : db.userExists userId = true)
    (hbal : ¬(db.wallet_balance userId <
      toFixed 2 ((((now - s.startTime) / 1000) / 60) * s.pricePerMinute))) :
    (CallController.endCallSession db userId sessionId now).1 =
      EndSessionResult.ok sessionId (((now - s.startTime) / 1000) / 60)
        (toFixed 2 ((((now - s.startTime) / 1000) / 60) * s.pricePerMinute))
        (some (db.wallet_balance userId -
          toFixed 2 ((((now - s.startTime) / 1000) / 60) * s.pricePerMinute)))
        (some db.transactions.length) ∧
    (CallController.endCallSession db userId sessionId now).2.wallet_balance
        userId =
      db.wallet_balance userId -
        toFixed 2 ((((now - s.startTime) / 1000) / 60) * s.pricePerMinute) ∧
    ∀ t ∈ (CallController.endCallSession db userId sessionId now).2.sessions,
      t.id = sessionId →
        t.totalCost =
          some (toFixed 2 ((((now - s.startTime) / 1000) / 60) * s.pricePerMinute)) ∧
        t.status = SessionStatus.completed := by
  refine ⟨?_, ?_, ?_⟩
  · simp [CallController.endCallSession, hfind, CallController.exactCost,
      CallController.exactMinutes, WalletController.deductFromWallet, hu, hbal,
      incrementAstrologerCalls]
  · simp [CallController.endCallSession, hfind, CallController.exactCost,
      CallController.exactMinutes, WalletController.deductFromWallet, hu, hbal,
      incrementAstrologerCalls, Function.update_same]
  · intro t ht hid
    simp only [CallController.endCallSession, hfind,
      CallController.exactCost, CallController.exactMinutes,
      WalletController.deductFromWallet, hu, Bool.not_true, Bool.false_eq_true,
      if_false, hbal, incrementAstrologerCalls, List.mem_map] at ht
    obtain ⟨x, _, hx⟩ := ht
    by_cases hxid : x.id = sessionId
    · rw [← hx]
      simp [hxid]
    · rw [← hx] at hid
      simp [hxid] at hid

/-- Witness for C1 at the spec's scenario: the active call session of
`dbCall` priced 10 per minute ends after exactly 90 seconds and is charged
exactly 15.00, not a rounded-up 20. -/
theorem C1_witness :
    dbCall.sessions.find? (activeCallSessionQuery 1 7) = some sessCall ∧
    (CallController.endCallSession dbCall 7 1 90000).1 =
      EndSessionResult.ok 1 (3 / 2) 15 (some 85) (some 0) := by
  have hfind : dbCall.sessions.find? (activeCallSessionQuery 1 7) =
      some sessCall := by
    simp [dbCall, dbBase, activeCallSessionQuery, sessCall, sessChat]
  have hbal : ¬(dbCall.wallet_balance 7 <
      toFixed 2 ((((90000 - sessCall.startTime) / 1000) / 60) *
        sessCall.pricePerMinute)) := by
    norm_num [dbCall, dbBase, sessCall, sessChat, toFixed, round_eq]
  refine ⟨hfind, ?_⟩
  rw [(C1_call_end_fractional_billing dbCall 7 1 90000 sessCall hfind rfl hbal).1]
  simp [sessCall, sessChat, dbCall, dbBase]
  norm_num [toFixed, round_eq]

/-- Counterexample for C1 as stated: the CHAT session-end operation bills the
same 90-second session at 10 per minute as `ceil(1.5) = 2` whole minutes for
a charge of 20, not the claimed `round(1.5 * 10, 2) = 15`. -/
theorem C1_counterexample :
    (ChatController.endChatSession dbBase 7 1 90000).1 =
      EndSessionResult.ok 1 2 20 (some 80) (some 0) ∧
    toFixed 2 ((((90000 : ℚ) - 0) / 1000 / 60) * 10) = 15 ∧
    ((20 : ℚ) ≠ 15) := by
  have hfind : dbBase.sessions.find? (activeSessionQuery 1 7) =
      some sessChat := by
    simp [dbBase, activeSessionQuery, sessChat]
  have hceilv : (⌈((90000 : ℚ) - 0) / (1000 * 60)⌉ : ℤ) = 2 := by
    rw [show ((90000 : ℚ) - 0) / (1000 * 60) = 3 / 2 by norm_num]
    rw [Int.ceil_eq_iff] <;> norm_num
  have hceil : ChatController.ceilMinutes sessChat.startTime 90000 = 2 := by
    rw [ChatController.ceilMinutes]
    rw [show sessChat.startTime = 0 from rfl, hceilv]
    norm_num
  refine ⟨?_, ?_, by norm_num⟩
  · simp only [ChatController.endChatSession, hfind, hceil]
    have hlt : ¬((100 : ℚ) < 2 * sessChat.pricePerMinute) := by
      norm_num [sessChat]
    simp [WalletController.deductFromWallet, dbBase, hlt,
      incrementAstrologerCalls]
    norm_num [sessChat]
  · norm_num [toFixed, round_eq]

/-- C2 (amended): for the EXPLICIT end operations (chat and call), a failing
wallet debit propagates as the insufficient-balance error and the store —
including the session row, still `active` with `endTime`, `duration`,
`totalCost` unset — is returned unchanged; the session is marked completed
only when the debit succeeded.  (The internal auto-end step instead ignores
the debit result; see the counterexample.) -/
theorem C2_explicit_end_debit_failure (db : DB) (userId sessionId : Nat)
    (now : ℚ) :
    (∀ s, db.sessions.find? (activeSessionQuery sessionId userId) = some s →
      db.userExists userId = true →
      db.wallet_balance userId <
        ChatController.ceilMinutes s.startTime now * s.pricePerMinute →
      ChatController.endChatSession db userId sessionId now =
        (EndSessionResult.insufficientBalance (some "Insufficient balance"),
         db)) ∧
    (∀ s, db.sessions.find? (activeCallSessionQuery sessionId userId) = some s →
      db.userExists userId = true →
      db.wallet_balance userId <
        CallController.exactCost s.startTime now s.pricePerMinute →
      CallController.endCallSession db userId sessionId now =
        (EndSessionResult.insufficientBalance (some "Insufficient balance"),
         db)) := by
  constructor
  · intro s hfind hu hlt
    simp [ChatController.endChatSession, hfind,
      WalletController.deductFromWallet, hu, hlt]
  · intro s hfind hu hlt
    simp [CallController.endCallSession, hfind,
      WalletController.deductFromWallet, hu, hlt]

/-- Witness for C2 at a concrete input: user 7 of `dbPoor` has balance 0 and
an active 90-second chat session costing 20; the explicit end fails with the
insufficient-balance error and returns the store unchanged. -/
theorem C2_witness :
    (dbPoor.sessions.find? (activeSessionQuery 1 7) = some sessChat ∧
      dbPoor.wallet_balance 7 <
        ChatController.ceilMinutes sessChat.startTime 90000 *
          sessChat.pricePerMinute) ∧
    ChatController.endChatSession dbPoor 7 1 90000 =
      (EndSessionResult.insufficientBalance (some "Insufficient balance"),
       dbPoor) := by
  have hfind : dbPoor.sessions.find? (activeSessionQuery 1 7) =
      some sessChat := by
    simp [dbPoor, activeSessionQuery, sessChat]
  have hlt : dbPoor.wallet_balance 7 <
      ChatController.ceilMinutes sessChat.startTime 90000 *
        sessChat.pricePerMinute := by
    have h90 : (⌈((90000 : ℚ) - 0) / (1000 * 60)⌉ : ℤ) = 2 := by
      rw [show ((90000 : ℚ) - 0) / (1000 * 60) = 3 / 2 by norm_num]
      rw [Int.ceil_eq_iff] <;> norm_num
    rw [ChatController.ceilMinutes, show sessChat.startTime = 0 from rfl, h90]
    norm_num [dbPoor, sessChat]
  exact ⟨⟨hfind, hlt⟩,
    (C2_explicit_end_debit_failure dbPoor 7 1 90000).1 sessChat hfind rfl hlt⟩

/-- Counterexample for C2 as stated: the internal auto-end settlement
(`endExistingSession`, reached from `start`) of the same unpayable session
marks it completed anyway — the debit fails (balance 0 stays 0, no
transaction row), yet the session row is updated to `completed` with its
cost, instead of being left `active`. -/
theorem C2_counterexample :
    dbPoor.wallet_balance 7 < 2 * sessChat.pricePerMinute ∧
    (ChatController.endExistingSession dbPoor 1 7 90000).transactions = [] ∧
    (ChatController.endExistingSession dbPoor 1 7 90000).wallet_balance 7 = 0 ∧
    (ChatController.endExistingSession dbPoor 1 7 90000).sessions =
      [{ sessChat with endTime := some 90000, duration := some 2, totalCost := some 20, status := SessionStatus.completed }] := by
  have hfind : dbPoor.sessions.find? (sessionByIdQuery 1) = some sessChat := by
    simp [dbPoor, sessionByIdQuery, sessChat]
  have h90 : (⌈((90000 : ℚ) - 0) / (1000 * 60)⌉ : ℤ) = 2 := by
    rw [show ((90000 : ℚ) - 0) / (1000 * 60) = 3 / 2 by norm_num]
    rw [Int.ceil_eq_iff] <;> norm_num
  have hceil : ChatController.ceilMinutes sessChat.startTime 90000 = 2 := by
    rw [ChatController.ceilMinutes, show sessChat.startTime = 0 from rfl, h90]
    norm_num
  have hlt : dbPoor.wallet_balance 7 < 2 * sessChat.pricePerMinute := by
    norm_num [dbPoor, sessChat]
  refine ⟨hlt, ?_, ?_, ?_⟩ <;>
    · simp only [ChatController.endExistingSession, hfind, hceil]
      norm_num [WalletController.deductFromWallet, dbPoor, sessChat,
        incrementAstrologerCalls]

/-- `deductFromWallet` never touches the sessions table. -/
theorem deduct_sessions_eq (db : DB) (userId : Nat) (amount : ℚ)
    (description : String) (astrologerId sessionId : Option Nat)
    (duration : Option ℚ) :
    (WalletController.deductFromWallet db userId amount description
      astrologerId sessionId duration).2.sessions = db.sessions := by
  unfold WalletController.deductFromWallet
  by_cases hu : db.userExists userId = true
  · by_cases hlt : db.wallet_balance userId < amount <;> simp [hu, hlt]
  · simp [Bool.eq_false_iff.mpr hu]

/-- A map that can only keep an element unchanged or knock it out of a
filter never increases the filtered length. -/
theorem length_filter_map_le {α : Type} (f : α → α) (p : α → Bool)
    (h : ∀ x, p (f x) = true → p x = true) (l : List α) :
    ((l.map f).filter p).length ≤ (l.filter p).length := by
  induction l with
  | nil => simp
  | cons x t ih =>
    simp only [List.map_cons, List.filter_cons]
    by_cases hf : p (f x) = true
    · simp only [hf, h x hf, if_true, List.length_cons]
      exact Nat.succ_le_succ ih
    · by_cases hx : p x = true
      · simp only [hf, hx, if_false, if_true, List.length_cons]
        exact Nat.le_succ_of_le ih
      · simp only [hf, hx, if_false]
        exact ih

/-- A list of length at most one containing `x` is exactly `[x]`. -/
theorem eq_singleton_of_length_le_one {α : Type} {l : List α} {x : α}
    (hx : x ∈ l) (h : l.length ≤ 1) : l = [x] := by
  cases l with
  | nil => cases hx
  | cons a t =>
    cases t with
    | nil => simp_all
    | cons b u => simp at h

/-- C6: against an approved, available astrologer with selected per-minute
price `p`, starting a session (chat controller, and call controller for the
non-chat types it accepts) fails with the insufficient-balance error exactly
when the balance is strictly below the five-minute floor `p * 5`; a balance
of exactly `p * 5` yields a created session; and for a user with no active
session the start changes neither the wallet balance nor the transaction
ledger — nothing is debited or reserved. -/
theorem C6_start_five_minute_floor (db : DB) (userId astrologerId : Nat)
    (sessionType : SessionType) (now : ℚ) (newSessionId : Nat)
    (astrologer : Astrologer) (p : ℚ)
    (hast : db.astrologers astrologerId = some astrologer)
    (happr : astrologer.status = AstrologerStatus.approved)
    (havail : astrologer.is_available = true)
    (hu : db.userExists userId = true)
    (hp : p = if sessionType = SessionType.chat then
      astrologer.chat_price_per_minute else astrologer.call_price_per_minute) :
    ((ChatController.startChatSession db userId astrologerId sessionType now
        newSessionId).1 =
      StartSessionResult.insufficientBalance "Insufficient wallet balance" ↔
      db.wallet_balance userId < p * 5) ∧
    (db.wallet_balance userId = p * 5 →
      (ChatController.startChatSession db userId astrologerId sessionType now
        newSessionId).1 =
      StartSessionResult.ok (Session.mk newSessionId userId astrologerId
        sessionType now none p none none SessionStatus.active)) ∧
    (db.sessions.find? (userActiveSessionQuery userId) = none →
      (ChatController.startChatSession db userId astrologerId sessionType now
        newSessionId).2.wallet_balance = db.wallet_balance ∧
      (ChatController.startChatSession db userId astrologerId sessionType now
        newSessionId).2.transactions = db.transactions) ∧
    (sessionType ≠ SessionType.chat →
      ((CallController.startCallSession db userId astrologerId sessionType now
          newSessionId).1 =
        StartSessionResult.insufficientBalance "Insufficient wallet balance" ↔
        db.wallet_balance userId < p * 5) ∧
      (db.wallet_balance userId = p * 5 →
        (CallController.startCallSession db userId astrologerId sessionType now
          newSessionId).1 =
        StartSessionResult.ok (Session.mk newSessionId userId astrologerId
          sessionType now none p none none SessionStatus.active)) ∧
      (db.sessions.find? (userActiveSessionQuery userId) = none →
        (CallController.startCallSession db userId astrologerId sessionType now
          newSessionId).2.wallet_balance = db.wallet_balance ∧
        (CallController.startCallSession db userId astrologerId sessionType now
          newSessionId).2.transactions = db.transactions)) := by
  have hchat : ∀ h : ¬(db.wallet_balance userId < p * 5),
      ∃ db1, ChatController.startChatSession db userId astrologerId sessionType
          now newSessionId =
        (StartSessionResult.ok (Session.mk newSessionId userId astrologerId
            sessionType now none p none none SessionStatus.active),
         { db1 with sessions := db1.sessions ++ [Session.mk newSessionId userId
            astrologerId sessionType now none p none none
            SessionStatus.active] }) ∧
        (db.sessions.find? (userActiveSessionQuery userId) = none →
          db1 = db) := by
    intro h
    cases hfind : db.sessions.find? (userActiveSessionQuery userId) with
    | none =>
      refine ⟨db, ?_, fun _ => rfl⟩
      simp [ChatController.startChatSession, hast, happr, havail, hu, hfind,
        ← hp, h]
    | some ex =>
      refine ⟨ChatController.endExistingSession db ex.id userId now, ?_, ?_⟩
      · simp [ChatController.startChatSession, hast, happr, havail, hu,
          hfind, ← hp, h]
      · intro hnone
        simp [hfind] at hnone
  have hcall : ∀ _ : sessionType ≠ SessionType.chat,
      ∀ _ : ¬(db.wallet_balance userId < p * 5),
      ∃ db1, CallController.startCallSession db userId astrologerId sessionType
          now newSessionId =
        (StartSessionResult.ok (Session.mk newSessionId userId astrologerId
            sessionType now none p none none SessionStatus.active),
         { db1 with sessions := db1.sessions ++ [Session.mk newSessionId userId
            astrologerId sessionType now none p none none
            SessionStatus.active] }) ∧
        (db.sessions.find? (userActiveSessionQuery userId) = none →
          db1 = db) := by
    intro hty h
    have hpcall : p = astrologer.call_price_per_minute := by
      rw [hp, if_neg hty]
    cases hfind : db.sessions.find? (userActiveSessionQuery userId) with
    | none =>
      refine ⟨db, ?_, fun _ => rfl⟩
      simp [CallController.startCallSession, hty, hast, happr, havail, hu,
        hfind, ← hpcall, h]
    | some ex =>
      refine ⟨CallController.endExistingSession db ex.id userId now, ?_, ?_⟩
      · simp [CallController.startCallSession, hty, hast, happr, havail, hu,
          hfind, ← hpcall, h]
      · intro hnone
        simp [hfind] at hnone
  refine ⟨?_, ?_, ?_, ?_⟩
  · constructor
    · intro hres
      by_contra hnot
      obtain ⟨db1, heq, -⟩ := hchat hnot
      rw [heq] at hres
      cases hres
    · intro hlt
      by_cases hty : sessionType = SessionType.chat
      · rw [hp, if_pos hty] at hlt
        simp [ChatController.startChatSession, hast, happr, havail, hu, hty,
          hlt]
      · rw [hp, if_neg hty] at hlt
        simp [ChatController.startChatSession, hast, happr, havail, hu, hty,
          hlt]
  · intro heqbal
    have hnot : ¬(db.wallet_balance userId < p * 5) := by rw [heqbal]; simp
    obtain ⟨db1, heq, -⟩ := hchat hnot
    rw [heq]
  · intro hnone
    by_cases hlt : db.wallet_balance userId < p * 5
    · by_cases hty : sessionType = SessionType.chat
      · have hlt2 := hlt
        rw [hp, if_pos hty] at hlt2
        constructor <;>
          simp [ChatController.startChatSession, hast, happr, havail, hu, hty,
            hlt2]
      · have hlt2 := hlt
        rw [hp, if_neg hty] at hlt2
        constructor <;>
          simp [ChatController.startChatSession, hast, happr, havail, hu, hty,
            hlt2]
    · obtain ⟨db1, heq, hdb1⟩ := hchat hlt
      rw [hdb1 hnone] at heq
      rw [heq]
      exact ⟨rfl, rfl⟩
  · intro hty
    refine ⟨?_, ?_, ?_⟩
    · constructor
      · intro hres
        by_contra hnot
        obtain ⟨db1, heq, -⟩ := hcall hty hnot
        rw [heq] at hres
        cases hres
      · intro hlt
        have hpcall : p = astrologer.call_price_per_minute := by
          rw [hp, if_neg hty]
        rw [hpcall] at hlt
        simp [CallController.startCallSession, hty, hast, happr, havail, hu,
          hlt]
    · intro heqbal
      have hnot : ¬(db.wallet_balance userId < p * 5) := by rw [heqbal]; simp
      obtain ⟨db1, heq, -⟩ := hcall hty hnot
      rw [heq]
    · intro hnone
      by_cases hlt : db.wallet_balance userId < p * 5
      · have hpcall : p = astrologer.call_price_per_minute := by
          rw [hp, if_neg hty]
        have hlt2 := hlt
        rw [hpcall] at hlt2
        constructor <;>
          simp [CallController.startCallSession, hty, hast, happr, havail, hu,
            hlt2]
      · obtain ⟨db1, heq, hdb1⟩ := hcall hty hlt
        rw [hdb1 hnone] at heq
        rw [heq]
        exact ⟨rfl, rfl⟩

/-- Witness for C6 at concrete inputs: user 7 of `dbFifty` holds exactly 50
(= 10 × 5) — the chat start succeeds with a created active session and
leaves wallet and ledger untouched — while a video start against the call
price 12 (floor 60) fails with the insufficient-balance error. -/
theorem C6_witness :
    (dbFifty.astrologers 3 = some astroStd ∧ dbFifty.userExists 7 = true ∧
      dbFifty.wallet_balance 7 = (10 : ℚ) * 5 ∧
      dbFifty.sessions.find? (userActiveSessionQuery 7) = none) ∧
    (ChatController.startChatSession dbFifty 7 3 SessionType.chat 90000 2).1 =
      StartSessionResult.ok (Session.mk 2 7 3 SessionType.chat 90000 none 10
        none none SessionStatus.active) ∧
    (ChatController.startChatSession dbFifty 7 3 SessionType.chat 90000
        2).2.wallet_balance = dbFifty.wallet_balance ∧
    (ChatController.startChatSession dbFifty 7 3 SessionType.chat 90000
        2).2.transactions = dbFifty.transactions ∧
    (CallController.startCallSession dbFifty 7 3 SessionType.video 90000
        2).1 =
      StartSessionResult.insufficientBalance "Insufficient wallet balance" := by
  have hast : dbFifty.astrologers 3 = some astroStd := by
    norm_num [dbFifty, dbBase]
  have hnone : dbFifty.sessions.find? (userActiveSessionQuery 7) = none := by
    simp [dbFifty, dbBase]
  have h1 := C6_start_five_minute_floor dbFifty 7 3 SessionType.chat 90000 2
    astroStd 10 hast rfl rfl rfl (by norm_num [astroStd])
  have h2 := C6_start_five_minute_floor dbFifty 7 3 SessionType.video 90000 2
    astroStd 12 hast rfl rfl rfl (by simp [astroStd])
  refine ⟨⟨hast, rfl, by norm_num [dbFifty, dbBase], hnone⟩, ?_, ?_, ?_, ?_⟩
  · exact h1.2.1 (by norm_num [dbFifty, dbBase])
  · exact (h1.2.2.1 hnone).1
  · exact (h1.2.2.1 hnone).2
  · exact ((h2.2.2.2 (by simp)).1).mpr (by norm_num [dbFifty, dbBase])

/-- When the gate checks pass and the user has no active session,
`startChatSession` returns the freshly inserted active row and appends it to
the sessions table, touching nothing else. -/
theorem startChatSession_ok_none (db : DB) (userId astrologerId : Nat)
    (sessionType : SessionType) (now : ℚ) (newSessionId : Nat)
    (astrologer : Astrologer)
    (hast : db.astrologers astrologerId = some astrologer)
    (happr : astrologer.status = AstrologerStatus.approved)
    (havail : astrologer.is_available = true)
    (hu : db.userExists userId = true)
    (hbal : ¬(db.wallet_balance userId <
      (if sessionType = SessionType.chat then astrologer.chat_price_per_minute
        else astrologer.call_price_per_minute) * 5))
    (hfind : db.sessions.find? (userActiveSessionQuery userId) = none) :
    ChatController.startChatSession db userId astrologerId sessionType now
      newSessionId =
    (StartSessionResult.ok (Session.mk newSessionId userId astrologerId
        sessionType now none
        (if sessionType = SessionType.chat then astrologer.chat_price_per_minute
          else astrologer.call_price_per_minute) none none
        SessionStatus.active),
     { db with sessions := db.sessions ++ [Session.mk newSessionId userId
        astrologerId sessionType now none
        (if sessionType = SessionType.chat then astrologer.chat_price_per_minute
          else astrologer.call_price_per_minute) none none
        SessionStatus.active] }) := by
  have hcond : (!(db.userExists userId) || decide (db.wallet_balance userId <
      (if sessionType = SessionType.chat then astrologer.chat_price_per_minute
        else astrologer.call_price_per_minute) * 5)) = false := by
    simp [hu, hbal]
    simpa [ite_mul] using not_lt.mp hbal
  simp only [ChatController.startChatSession, hast, happr, havail, hfind, hcond]
  simp

/-- When the gate checks pass and the user has an active session `ex`,
`startChatSession` first runs `endExistingSession` on `ex` and then appends
the freshly inserted active row. -/
theorem startChatSession_ok_some (db : DB) (userId astrologerId : Nat)
    (sessionType : SessionType) (now : ℚ) (newSessionId : Nat)
    (astrologer : Astrologer) (ex : Session)
    (hast : db.astrologers astrologerId = some astrologer)
    (happr : astrologer.status = AstrologerStatus.approved)
    (havail : astrologer.is_available = true)
    (hu : db.userExists userId = true)
    (hbal : ¬(db.wallet_balance userId <
      (if sessionType = SessionType.chat then astrologer.chat_price_per_minute
        else astrologer.call_price_per_minute) * 5))
    (hfind : db.sessions.find? (userActiveSessionQuery userId) = some ex) :
    ChatController.startChatSession db userId astrologerId sessionType now
      newSessionId =
    (StartSessionResult.ok (Session.mk newSessionId userId astrologerId
        sessionType now none
        (if sessionType = SessionType.chat then astrologer.chat_price_per_minute
          else astrologer.call_price_per_minute) none none
        SessionStatus.active),
     { ChatController.endExistingSession db ex.id userId now with sessions := (ChatController.endExistingSession db ex.id userId now).sessions ++ [Session.mk newSessionId userId astrologerId sessionType now none (if sessionType = SessionType.chat then astrologer.chat_price_per_minute else astrologer.call_price_per_minute) none none SessionStatus.active] }) := by
  have hcond : (!(db.userExists userId) || decide (db.wallet_balance userId <
      (if sessionType = SessionType.chat then astrologer.chat_price_per_minute
        else astrologer.call_price_per_minute) * 5)) = false := by
    simp [hu, hbal]
    simpa [ite_mul] using not_lt.mp hbal
  simp only [ChatController.startChatSession, hast, happr, havail, hfind, hcond]
  simp

/-- The sessions table after the chat controller's `endExistingSession`: the
rows with the ended session's id are completed with the `ceil`-minute cost of
the row the helper re-loaded; all other rows are untouched. -/
theorem chat_endExistingSession_sessions (db : DB) (sessionId userId : Nat)
    (now : ℚ) (fnd : Session)
    (hfnd : db.sessions.find? (sessionByIdQuery sessionId) = some fnd) :
    (ChatController.endExistingSession db sessionId userId now).sessions =
      db.sessions.map (fun s => if s.id = sessionId then { s with endTime := some now, duration := some (ChatController.ceilMinutes fnd.startTime now), totalCost := some (ChatController.ceilMinutes fnd.startTime now * fnd.pricePerMinute), status := SessionStatus.completed } else s) := by
  simp only [ChatController.endExistingSession, hfnd, incrementAstrologerCalls]
  rw [deduct_sessions_eq]

/-- The wallet after the chat controller's `endExistingSession` when the
settlement debit can be paid: the `ceil`-minute cost of the re-loaded row is
debited. -/
theorem chat_endExistingSession_wallet_success (db : DB)
    (sessionId userId : Nat) (now : ℚ) (fnd : Session)
    (hfnd : db.sessions.find? (sessionByIdQuery sessionId) = some fnd)
    (hu : db.userExists userId = true)
    (hbal : ¬(db.wallet_balance userId <
      ChatController.ceilMinutes fnd.startTime now * fnd.pricePerMinute)) :
    (ChatController.endExistingSession db sessionId userId
        now).wallet_balance userId =
      db.wallet_balance userId -
        ChatController.ceilMinutes fnd.startTime now * fnd.pricePerMinute := by
  simp only [ChatController.endExistingSession, hfnd, incrementAstrologerCalls]
  simp [WalletController.deductFromWallet, hu, hbal, Function.update_same]

/-- C3 (amended): a `start` by a user holding an active session ends that
session before inserting the new row: the old session is marked completed
(whether or not its settlement debit could be paid — unlike an explicit end,
which would leave it active on debit failure) and, when the wallet covers
the auto-end's `ceil`-minute cost, that cost is debited; the inserted row is
the user's unique active session afterwards, so the at-most-one-active-
session-per-user invariant is preserved for every user. -/
theorem C3_start_auto_end_invariant (db : DB) (userId astrologerId : Nat)
    (sessionType : SessionType) (now : ℚ) (newSessionId : Nat)
    (astrologer : Astrologer)
    (hast : db.astrologers astrologerId = some astrologer)
    (happr : astrologer.status = AstrologerStatus.approved)
    (havail : astrologer.is_available = true)
    (hu : db.userExists userId = true)
    (hbal : ¬(db.wallet_balance userId <
      (if sessionType = SessionType.chat then astrologer.chat_price_per_minute
        else astrologer.call_price_per_minute) * 5))
    (hinv : ∀ v, (activeSessionsOf db v).length ≤ 1)
    (hfresh : ∀ t ∈ db.sessions, t.id ≠ newSessionId) :
    (ChatController.startChatSession db userId astrologerId sessionType now
        newSessionId).1 =
      StartSessionResult.ok (Session.mk newSessionId userId astrologerId
        sessionType now none
        (if sessionType = SessionType.chat then astrologer.chat_price_per_minute
          else astrologer.call_price_per_minute) none none
        SessionStatus.active) ∧
    (∀ v, (activeSessionsOf (ChatController.startChatSession db userId
        astrologerId sessionType now newSessionId).2 v).length ≤ 1) ∧
    activeSessionsOf (ChatController.startChatSession db userId astrologerId
        sessionType now newSessionId).2 userId =
      [Session.mk newSessionId userId astrologerId sessionType now none
        (if sessionType = SessionType.chat then astrologer.chat_price_per_minute
          else astrologer.call_price_per_minute) none none
        SessionStatus.active] ∧
    (∀ ex ∈ db.sessions, ex.userId = userId →
      ex.status = SessionStatus.active →
      ∀ t ∈ (ChatController.startChatSession db userId astrologerId sessionType
          now newSessionId).2.sessions,
        t.id = ex.id → t.status = SessionStatus.completed) ∧
    (∀ ex, db.sessions.find? (userActiveSessionQuery userId) = some ex →
      db.sessions.find? (sessionByIdQuery ex.id) = some ex →
      ¬(db.wallet_balance userId <
        ChatController.ceilMinutes ex.startTime now * ex.pricePerMinute) →
      (ChatController.startChatSession db userId astrologerId sessionType now
        newSessionId).2.wallet_balance userId =
        db.wallet_balance userId -
          ChatController.ceilMinutes ex.startTime now * ex.pricePerMinute) := by
  cases hfind : db.sessions.find? (userActiveSessionQuery userId) with
  | none =>
    have hstart := startChatSession_ok_none db userId astrologerId sessionType
      now newSessionId astrologer hast happr havail hu hbal hfind
    have hnil : db.sessions.filter (userActiveSessionQuery userId) = [] :=
      List.filter_eq_nil_iff.mpr (by
        intro x hx
        simpa using List.find?_eq_none.mp hfind x hx)
    refine ⟨?_, ?_, ?_, ?_, ?_⟩
    · rw [hstart]
    · intro v
      rw [hstart]
      simp only [activeSessionsOf, List.filter_append]
      by_cases hv : v = userId
      · subst hv
        rw [hnil]
        simp [userActiveSessionQuery]
      · rw [List.length_append]
        have hone : List.filter (userActiveSessionQuery v)
            [Session.mk newSessionId userId astrologerId sessionType now none
              (if sessionType = SessionType.chat then
                astrologer.chat_price_per_minute
                else astrologer.call_price_per_minute) none none
              SessionStatus.active] = [] := by
          simp [userActiveSessionQuery]
          exact fun h => hv h.symm
        rw [hone]
        simpa using hinv v
    · rw [hstart]
      simp only [activeSessionsOf, List.filter_append]
      rw [hnil]
      simp [userActiveSessionQuery]
    · intro ex hex hexu hexa
      exact absurd (by simp [userActiveSessionQuery, hexu, hexa])
        (List.find?_eq_none.mp hfind ex hex)
    · intro ex hfind2
      simp [hfind] at hfind2
  | some ex =>
    have hexmem := List.mem_of_find?_eq_some hfind
    have hexq := List.find?_some hfind
    have hsingle : db.sessions.filter (userActiveSessionQuery userId) = [ex] :=
      eq_singleton_of_length_le_one (List.mem_filter.mpr ⟨hexmem, hexq⟩)
        (hinv userId)
    obtain ⟨fnd, hfnd⟩ :
        ∃ fnd, db.sessions.find? (sessionByIdQuery ex.id) = some fnd := by
      cases h : db.sessions.find? (sessionByIdQuery ex.id) with
      | some f => exact ⟨f, rfl⟩
      | none =>
        exact absurd (by simp [sessionByIdQuery])
          (List.find?_eq_none.mp h ex hexmem)
    have hstart := startChatSession_ok_some db userId astrologerId sessionType
      now newSessionId astrologer ex hast happr havail hu hbal hfind
    have hsess := chat_endExistingSession_sessions db ex.id userId now fnd hfnd
    have hkill : ∀ x ∈ db.sessions,
        ¬(userActiveSessionQuery userId (if x.id = ex.id then { x with endTime := some now, duration := some (ChatController.ceilMinutes fnd.startTime now), totalCost := some (ChatController.ceilMinutes fnd.startTime now * fnd.pricePerMinute), status := SessionStatus.completed } else x) = true) := by
      intro x hx hq
      by_cases hid : x.id = ex.id
      · rw [if_pos hid] at hq
        simp [userActiveSessionQuery] at hq
      · rw [if_neg hid] at hq
        have hxmem : x ∈ db.sessions.filter (userActiveSessionQuery userId) :=
          List.mem_filter.mpr ⟨hx, hq⟩
        rw [hsingle] at hxmem
        simp at hxmem
        exact hid (by rw [hxmem])
    have hmapnil : ((ChatController.endExistingSession db ex.id userId
        now).sessions).filter (userActiveSessionQuery userId) = [] := by
      rw [hsess]
      refine List.filter_eq_nil_iff.mpr ?_
      intro y hy
      obtain ⟨x, hx, hxy⟩ := List.mem_map.mp hy
      rw [← hxy]
      exact hkill x hx
    refine ⟨?_, ?_, ?_, ?_, ?_⟩
    · rw [hstart]
    · intro v
      rw [hstart]
      simp only [activeSessionsOf, List.filter_append]
      by_cases hv : v = userId
      · subst hv
        rw [hmapnil]
        simp [userActiveSessionQuery]
      · rw [List.length_append]
        have hone : List.filter (userActiveSessionQuery v)
            [Session.mk newSessionId userId astrologerId sessionType now none
              (if sessionType = SessionType.chat then
                astrologer.chat_price_per_minute
                else astrologer.call_price_per_minute) none none
              SessionStatus.active] = [] := by
          simp [userActiveSessionQuery]
          exact fun h => hv h.symm
        rw [hone]
        simp only [List.length_nil, Nat.add_zero]
        calc ((ChatController.endExistingSession db ex.id userId
            now).sessions.filter (userActiveSessionQuery v)).length
            ≤ (db.sessions.filter (userActiveSessionQuery v)).length := by
              rw [hsess]
              refine length_filter_map_le _ _ ?_ db.sessions
              intro x hq
              by_cases hid : x.id = ex.id
              · rw [if_pos hid] at hq
                simp [userActiveSessionQuery] at hq
              · rwa [if_neg hid] at hq
          _ ≤ 1 := hinv v
    · rw [hstart]
      simp only [activeSessionsOf, List.filter_append]
      rw [hmapnil]
      simp [userActiveSessionQuery]
    · intro ex2 hex2 hex2u hex2a t ht htid
      have hex2eq : ex2 = ex := by
        have : ex2 ∈ db.sessions.filter (userActiveSessionQuery userId) :=
          List.mem_filter.mpr ⟨hex2, by simp [userActiveSessionQuery, hex2u, hex2a]⟩
        rw [hsingle] at this
        simpa using this
      subst hex2eq
      rw [hstart] at ht
      simp only [List.mem_append] at ht
      rcases ht with hin | hnew
      · rw [hsess] at hin
        obtain ⟨x, hx, hxy⟩ := List.mem_map.mp hin
        by_cases hid : x.id = ex2.id
        · rw [if_pos hid] at hxy
          rw [← hxy]
        · rw [if_neg hid] at hxy
          rw [← hxy] at htid
          exact absurd htid hid
      · simp at hnew
        rw [hnew] at htid
        simp at htid
        exact absurd htid.symm (hfresh ex2 hex2)
    · intro ex2 hfind2 hfnd2 hbal2
      have hex2 : ex2 = ex := (Option.some.inj hfind2).symm
      subst hex2
      rw [hstart]
      exact chat_endExistingSession_wallet_success db ex2.id userId now ex2
        hfnd2 hu hbal2

/-- Witness for C3 at a concrete input: user 7 of `dbBase` holds an active
90-second chat session and starts a new one; the old session's rows are
completed, its cost 20 is debited from the balance 100, and every user again
has at most one active session — exactly the new row for user 7. -/
theorem C3_witness :
    (dbBase.astrologers 3 = some astroStd ∧ sessChat ∈ dbBase.sessions ∧
      sessChat.status = SessionStatus.active ∧
      (∀ v, (activeSessionsOf dbBase v).length ≤ 1)) ∧
    (ChatController.startChatSession dbBase 7 3 SessionType.chat 90000 2).1 =
      StartSessionResult.ok (Session.mk 2 7 3 SessionType.chat 90000 none
        (if SessionType.chat = SessionType.chat then
          astroStd.chat_price_per_minute else astroStd.call_price_per_minute)
        none none SessionStatus.active) ∧
    (∀ v, (activeSessionsOf (ChatController.startChatSession dbBase 7 3
        SessionType.chat 90000 2).2 v).length ≤ 1) ∧
    (∀ t ∈ (ChatController.startChatSession dbBase 7 3 SessionType.chat 90000
        2).2.sessions, t.id = sessChat.id →
      t.status = SessionStatus.completed) ∧
    (ChatController.startChatSession dbBase 7 3 SessionType.chat 90000
        2).2.wallet_balance 7 =
      dbBase.wallet_balance 7 -
        ChatController.ceilMinutes sessChat.startTime 90000 *
          sessChat.pricePerMinute := by
  have hast : dbBase.astrologers 3 = some astroStd := by norm_num [dbBase]
  have hinv : ∀ v, (activeSessionsOf dbBase v).length ≤ 1 := by
    intro v
    by_cases hv : v = 7
    · simp [activeSessionsOf, dbBase, userActiveSessionQuery, sessChat, hv]
    · have hv2 : ¬(7 = v) := fun h => hv h.symm
      simp [activeSessionsOf, dbBase, userActiveSessionQuery, sessChat, hv2]
  have hfresh : ∀ t ∈ dbBase.sessions, t.id ≠ 2 := by
    simp [dbBase, sessChat]
  have hbal : ¬(dbBase.wallet_balance 7 <
      (if SessionType.chat = SessionType.chat then
        astroStd.chat_price_per_minute else astroStd.call_price_per_minute) *
        5) := by
    norm_num [dbBase, astroStd]
  have h := C3_start_auto_end_invariant dbBase 7 3 SessionType.chat 90000 2
    astroStd hast rfl rfl rfl hbal hinv hfresh
  have hfind : dbBase.sessions.find? (userActiveSessionQuery 7) =
      some sessChat := by
    simp [dbBase, userActiveSessionQuery, sessChat]
  have hfnd : dbBase.sessions.find? (sessionByIdQuery sessChat.id) =
      some sessChat := by
    simp [dbBase, sessionByIdQuery, sessChat]
  have hbal2 : ¬(dbBase.wallet_balance 7 <
      ChatController.ceilMinutes sessChat.startTime 90000 *
        sessChat.pricePerMinute) := by
    have h90 : (⌈((90000 : ℚ) - 0) / (1000 * 60)⌉ : ℤ) = 2 := by
      rw [show ((90000 : ℚ) - 0) / (1000 * 60) = 3 / 2 by norm_num]
      rw [Int.ceil_eq_iff] <;> norm_num
    rw [ChatController.ceilMinutes, show sessChat.startTime = 0 from rfl, h90]
    norm_num [dbBase, sessChat]
  refine ⟨⟨hast, by simp [dbBase], rfl, hinv⟩, h.1, h.2.1, ?_, ?_⟩
  · exact h.2.2.2.1 sessChat (by simp [dbBase]) rfl rfl
  · exact h.2.2.2.2 sessChat hfind hfnd hbal2

/-- Counterexample for C3 as stated: in `dbPoor` (balance 0, active chat
session costing 20) a start against the free astrologer 9 passes the
affordability gate, marks the old session completed and inserts the new row,
but debits nothing — the balance is unchanged and no transaction row exists,
so the old session was NOT settled with the same logic as an explicit end
(which would have failed and left it active). -/
theorem C3_counterexample :
    (ChatController.startChatSession dbPoor 7 9 SessionType.chat 90000 2).1 =
      StartSessionResult.ok (Session.mk 2 7 9 SessionType.chat 90000 none 0
        none none SessionStatus.active) ∧
    (ChatController.startChatSession dbPoor 7 9 SessionType.chat 90000
        2).2.sessions =
      [{ sessChat with endTime := some 90000, duration := some 2, totalCost := some 20, status := SessionStatus.completed },
       Session.mk 2 7 9 SessionType.chat 90000 none 0 none none
        SessionStatus.active] ∧
    (ChatController.startChatSession dbPoor 7 9 SessionType.chat 90000
        2).2.transactions = [] ∧
    (ChatController.startChatSession dbPoor 7 9 SessionType.chat 90000
        2).2.wallet_balance 7 = dbPoor.wallet_balance 7 := by
  have hast : dbPoor.astrologers 9 = some astroFree := by norm_num [dbPoor]
  have hfind : dbPoor.sessions.find? (userActiveSessionQuery 7) =
      some sessChat := by
    simp [dbPoor, userActiveSessionQuery, sessChat]
  have hbal : ¬(dbPoor.wallet_balance 7 <
      (if SessionType.chat = SessionType.chat then
        astroFree.chat_price_per_minute else astroFree.call_price_per_minute) *
        5) := by
    norm_num [dbPoor, astroFree]
  have hstart := startChatSession_ok_some dbPoor 7 9 SessionType.chat 90000 2
    astroFree sessChat hast rfl rfl rfl hbal hfind
  have hfnd : dbPoor.sessions.find? (sessionByIdQuery sessChat.id) =
      some sessChat := by
    simp [dbPoor, sessionByIdQuery, sessChat]
  have h90 : (⌈((90000 : ℚ) - 0) / (1000 * 60)⌉ : ℤ) = 2 := by
    rw [show ((90000 : ℚ) - 0) / (1000 * 60) = 3 / 2 by norm_num]
    rw [Int.ceil_eq_iff] <;> norm_num
  have hceil : ChatController.ceilMinutes sessChat.startTime 90000 = 2 := by
    rw [ChatController.ceilMinutes, show sessChat.startTime = 0 from rfl, h90]
    norm_num
  refine ⟨?_, ?_, ?_, ?_⟩ <;> rw [hstart] <;>
    · simp only [ChatController.endExistingSession, hfnd, hceil]
      norm_num [WalletController.deductFromWallet, dbPoor, sessChat,
        astroFree, incrementAstrologerCalls]
